import Mathlib

/-!
Shallow embedding of the session-lifecycle and dashboard-aggregation logic
of the vighs farm-management dashboard, together with proofs of the
behavioural properties stated in its specification.

The embedding follows the source files:
  src/contexts/AuthContext.tsx   (session manager)
  src/components/LoadingSpinner.tsx  (loading guard)
  Dashboard component (fetchDashboardData and its derived chart series)

JavaScript numbers appearing in the aggregation code are modelled as exact
rationals; Math.round is modelled by jsRound below (round half towards
positive infinity, which is what Math.round does on every input).
Browser storage is modelled as a list of key-value pairs; clearing storage
is the empty list. Exceptions are modelled with Except.
-/

namespace Vighs

/-- Math.round on a rational: floor (q + 1/2). This agrees with the
JavaScript Math.round on all (non-NaN) inputs, including negative
half-integers, which round towards positive infinity. -/
def jsRound (q : ℚ) : ℤ := ⌊q + 1 / 2⌋

/-! ## Data model (section 3 of the spec) -/

/-- A land record: {id, farmer_id, location, acres}. Fields not read by the
aggregation code are omitted. -/
structure Land where
  id : Nat
  location : String
  acres : ℚ
deriving DecidableEq, Repr

/-- A plant record; only disease_percentage is read by the dashboard. -/
structure Plant where
  disease_percentage : ℚ
deriving DecidableEq, Repr

/-- A treatment-schedule record: {id, farmer_id, pesticide_name,
scheduled_date, completed}. Dates are modelled as integer time points with
the usual order, matching the Date comparisons in the source. -/
structure Treatment where
  id : Nat
  pesticide_name : String
  scheduled_date : ℤ
  completed : Bool
deriving DecidableEq, Repr

/-- A plant-diagnosis record; the dashboard only stores the fetched list. -/
structure Diagnosis where
  id : Nat
  created_at : ℤ
deriving DecidableEq, Repr

/-- The farmer (user) record held by the session. -/
structure Farmer where
  id : Nat
  email : String
deriving DecidableEq, Repr

/-! ## Session manager state (AuthContext.tsx) -/

/-- The client-side state owned by AuthProvider, together with the two
browser storages and the observable effect of a hard navigation to the
landing route (window.location.href setting). -/
structure AppState where
  user : Option Farmer
  loading : Bool
  sessionCheckAttempts : Nat
  localStorage : List (String × String)
  sessionStorage : List (String × String)
  navigatedHome : Bool
deriving DecidableEq, Repr

/-- MAX_SESSION_CHECK_ATTEMPTS = 3 (AuthContext.tsx line 28). -/
def MAX_SESSION_CHECK_ATTEMPTS : Nat := 3

/-- clearSession (AuthContext.tsx lines 30-35): setUser(null),
setLoading(false), localStorage.clear(), sessionStorage.clear(). -/
def clearSession (s : AppState) : AppState :=
  { s with user := none, loading := false, localStorage := [], sessionStorage := [] }

/-- handleSessionError (AuthContext.tsx lines 37-42): clearSession then a
hard navigation to the landing route. -/
def handleSessionError (s : AppState) : AppState :=
  { clearSession s with navigatedHome := true }

/-- signOut (AuthContext.tsx lines 176-185): try the external sign-out; on
error, log it (the returned Bool); finally clearSession. The external
outcome is the Except argument. -/
def signOut (res : Except String Unit) (s : AppState) : AppState × Bool :=
  match res with
  | Except.ok _ => (clearSession s, false)
  | Except.error _ => (clearSession s, true)

/-- Outcome of one failed run of checkUser: either the catch branch
scheduled a delayed retry (setTimeout of 2000ms re-entering checkUser), or
it gave up and ran handleSessionError. -/
inductive CheckOutcome
  | retryScheduled
  | clearedAndRedirected
deriving DecidableEq, Repr

/-- One execution of the catch branch of checkUser (AuthContext.tsx lines
78-95). First setSessionCheckAttempts(prev => prev + 1) updates the store;
then the guard compares sessionCheckAttempts against
MAX_SESSION_CHECK_ATTEMPTS. The value the guard reads is the one captured
by the closure, passed here as `captured`: checkUser is defined inside a
useEffect with an empty dependency list, so in the source this is the
value at mount, not the current store value. In the else branch the
scheduled callback re-checks captured < MAX_SESSION_CHECK_ATTEMPTS, which
holds there, so the retry always re-enters checkUser. -/
def checkUserOnFailure (captured : Nat) (s : AppState) : AppState × CheckOutcome :=
  let s' := { s with sessionCheckAttempts := s.sessionCheckAttempts + 1 }
  if MAX_SESSION_CHECK_ATTEMPTS ≤ captured then
    (handleSessionError s', CheckOutcome.clearedAndRedirected)
  else
    (s', CheckOutcome.retryScheduled)

/-- n consecutive failures of the initial session check starting from
state s. Every invocation of checkUser in this run belongs to the single
effect closure created at mount, so the captured sessionCheckAttempts
value is 0 in each invocation. The iteration stops early if some failure
cleared the session instead of scheduling a retry. -/
def failuresFromMount : Nat → AppState → AppState × CheckOutcome
  | 0, s => (s, CheckOutcome.retryScheduled)
  | n + 1, s =>
    match failuresFromMount n s with
    | (s', CheckOutcome.retryScheduled) => checkUserOnFailure 0 s'
    | r => r

/-- Modelled from the spec: the session-check failure handling as the
specification describes it, where the retry bound compares the current
retry count (the count of failures before this one) against
MAX_SESSION_CHECK_ATTEMPTS. This is the intended reading of
AuthContext.tsx lines 82-94; the source instead compares the stale value
captured when the mount effect was created (see checkUserOnFailure). -/
def specCheckUserOnFailure (s : AppState) : AppState × CheckOutcome :=
  let s' := { s with sessionCheckAttempts := s.sessionCheckAttempts + 1 }
  if MAX_SESSION_CHECK_ATTEMPTS ≤ s.sessionCheckAttempts then
    (handleSessionError s', CheckOutcome.clearedAndRedirected)
  else
    (s', CheckOutcome.retryScheduled)

/-- n consecutive failures under the specification reading of the retry
bound. -/
def specFailuresFromMount : Nat → AppState → AppState × CheckOutcome
  | 0, s => (s, CheckOutcome.retryScheduled)
  | n + 1, s =>
    match specFailuresFromMount n s with
    | (s', CheckOutcome.retryScheduled) => specCheckUserOnFailure s'
    | r => r

/-- The AuthProvider state at mount: no user, loading true, zero attempts,
some persisted client storage, no navigation performed. -/
def mountState : AppState :=
  { user := none
    loading := true
    sessionCheckAttempts := 0
    localStorage := [("vighs-key", "vighs-value")]
    sessionStorage := [("vighs-session", "v")]
    navigatedHome := false }

/-! ## Loading guard (LoadingSpinner.tsx) -/

/-- Delay of the hint-message timer, milliseconds (LoadingSpinner.tsx line
12). -/
def HINT_DELAY_MS : Nat := 8000

/-- Delay of the force-redirect timer, milliseconds (LoadingSpinner.tsx
line 19). -/
def FORCE_DELAY_MS : Nat := 12000

/-- Whether a timer armed at mount (time 0) with the given delay has fired
by time t. unmountAt is the time the effect cleanup ran (none while the
component stays mounted, which is the case exactly while loading stays
true). The cleanup clears the timer, so a timer fires only if the cleanup
did not run at or before its deadline. -/
def timerFired (delay : Nat) (unmountAt : Option Nat) (t : Nat) : Bool :=
  decide (delay ≤ t) &&
    match unmountAt with
    | none => true
    | some u => decide (delay < u)

/-- Visibility of the hint message: the 8000ms timer sets showTimeout to
true when it fires. -/
def showTimeout (unmountAt : Option Nat) (t : Nat) : Bool :=
  timerFired HINT_DELAY_MS unmountAt t

/-- Observable session state under the loading guard at time t: when the
12000ms timer fires, its callback runs clearSession and performs a hard
navigation to the landing route (window.location.href). -/
def loadingGuardState (s : AppState) (unmountAt : Option Nat) (t : Nat) : AppState :=
  if timerFired FORCE_DELAY_MS unmountAt t then
    { clearSession s with navigatedHome := true }
  else
    s

/-! ## Dashboard aggregation -/

/-- Count of not-completed treatments:
treatmentsData.filter(t => !t.completed).length. -/
def activeCount (ts : List Treatment) : Nat :=
  (ts.filter (fun t => !t.completed)).length

/-- Count of completed treatments:
treatmentsData.filter(t => t.completed).length. -/
def completedCount (ts : List Treatment) : Nat :=
  (ts.filter (fun t => t.completed)).length

/-- averageDiseasePercentage: avgDiseasePercentage starts at 0; if the
fetched plant set is nonempty it becomes the sum of the
disease_percentage values divided by the count; setStats then applies
Math.round. (The defensive `plant.disease_percentage || 0` in the source
is the identity on every numeric field value.) -/
def avgDiseasePercentage (plants : List Plant) : ℤ :=
  jsRound
    (if plants.length = 0 then 0
     else (plants.map (fun p => p.disease_percentage)).sum / plants.length)

/-- The stats record set by setStats on a successful fetch. -/
structure DashStats where
  totalLands : Nat
  totalAcres : ℚ
  activeTreatments : Nat
  completedTreatments : Nat
  averageDiseasePercentage : ℤ
deriving DecidableEq, Repr

/-- The Dashboard component state touched by fetchDashboardData. -/
structure DashState where
  stats : DashStats
  lands : List Land
  treatments : List Treatment
  diagnoses : List Diagnosis
deriving DecidableEq, Repr

/-- fetchDashboardData. The four query results arrive in source order
(lands, plants, treatments, diagnoses); each is an Except whose error
case models the awaited call throwing, and whose payload is the possibly
null data field. All state writes (setLands, setTreatments, setDiagnoses,
setStats) occur after the last await, so an exception at any query leaves
the whole prior state unchanged; the catch branch only logs (the returned
Bool). The early return when no user is resolved is the Option argument. -/
def fetchDashboardData (user : Option Farmer) (s : DashState)
    (qLands : Except Unit (Option (List Land)))
    (qPlants : Except Unit (Option (List Plant)))
    (qTreatments : Except Unit (Option (List Treatment)))
    (qDiagnoses : Except Unit (Option (List Diagnosis))) : DashState × Bool :=
  match user with
  | none => (s, false)
  | some _ =>
    match qLands with
    | Except.error _ => (s, true)
    | Except.ok landsData =>
      match qPlants with
      | Except.error _ => (s, true)
      | Except.ok plantsData =>
        match qTreatments with
        | Except.error _ => (s, true)
        | Except.ok treatmentsData =>
          match qDiagnoses with
          | Except.error _ => (s, true)
          | Except.ok diagnosesData =>
            let totalAcres :=
              (landsData.map (fun l => l.foldl (fun acc land => acc + land.acres) 0)).getD 0
            let stats : DashStats :=
              { totalLands := (landsData.map List.length).getD 0
                totalAcres := totalAcres
                activeTreatments := (treatmentsData.map activeCount).getD 0
                completedTreatments := (treatmentsData.map completedCount).getD 0
                averageDiseasePercentage := avgDiseasePercentage (plantsData.getD []) }
            ({ stats := stats
               lands := landsData.getD []
               treatments := treatmentsData.getD []
               diagnoses := diagnosesData.getD [] }, false)

/-- A slice of the crop-health donut: {name, value, fill}. -/
structure Slice where
  name : String
  value : ℤ
  fill : String
deriving DecidableEq, Repr

/-- calculateCropHealth: a single No Data slice when no treatments exist;
otherwise Math.round((completed / total) * 100) as the Treated share and
its complement as the Needs Treatment share, each slice pushed only when
its value is strictly positive. The inner totalTreatments === 0 branch of
the source is kept even though it is unreachable. -/
def calculateCropHealth (treatments : List Treatment) : List Slice :=
  if treatments.length = 0 then
    [{ name := "No Data", value := 100, fill := "#9CA3AF" }]
  else
    let completedTreatments := (treatments.filter (fun t => t.completed)).length
    let totalTreatments := treatments.length
    if totalTreatments = 0 then
      [{ name := "Needs Treatment", value := 100, fill := "#EF4444" }]
    else
      let healthyPercentage :=
        jsRound ((completedTreatments : ℚ) / (totalTreatments : ℚ) * 100)
      let needsTreatmentPercentage := 100 - healthyPercentage
      (if 0 < healthyPercentage then
        [{ name := "Treated", value := healthyPercentage, fill := "#10B981" }]
       else []) ++
      (if 0 < needsTreatmentPercentage then
        [{ name := "Needs Treatment", value := needsTreatmentPercentage, fill := "#EF4444" }]
       else [])

/-- First space-separated word of a pesticide name, the JavaScript
pesticide_name.split(" ")[0]: the prefix of the string before its first
space (the whole string when it has no space, the empty string when it
starts with a space). -/
def firstWord (s : String) : String :=
  String.mk (s.data.takeWhile (fun c => !(c == ' ')))

/-- One reduce step of the pesticide grouping accumulator: look up the
first word of the pesticide name; create the group on first sight (object
keys keep insertion order), then bump used and, when the treatment is
completed, effective. Groups are (key, used, effective). -/
def addTreatmentToStats (acc : List (String × Nat × Nat)) (t : Treatment) :
    List (String × Nat × Nat) :=
  let name := firstWord t.pesticide_name
  if acc.any (fun e => e.1 = name) then
    acc.map (fun e =>
      if e.1 = name then
        (e.1, e.2.1 + 1, if t.completed then e.2.2 + 1 else e.2.2)
      else e)
  else
    acc ++ [(name, 1, if t.completed then 1 else 0)]

/-- generatePesticideUsage: reduce the treatments into per-first-word
groups, map each group to (pesticide, used, effectiveness) with
effectiveness = Math.round((effective / used) * 100) when used > 0 and 0
otherwise, then slice(0, 6). -/
def generatePesticideUsage (treatments : List Treatment) :
    List (String × Nat × ℤ) :=
  let pesticideStats := treatments.foldl addTreatmentToStats []
  (pesticideStats.map (fun e =>
    (e.1, e.2.1,
      if 0 < e.2.1 then jsRound ((e.2.2 : ℚ) / (e.2.1 : ℚ) * 100) else 0))).take 6

/-- Count of treatments with scheduled date on or before the given day
that are completed: treatments.filter(t => new Date(t.scheduled_date) <=
date && t.completed).length. -/
def completedOnOrBefore (treatments : List Treatment) (date : ℤ) : Nat :=
  (treatments.filter (fun t => decide (t.scheduled_date ≤ date) && t.completed)).length

/-- The entry generateCropHealthTrend computes for one day. avg is
stats.averageDiseasePercentage. Returns (health, disease). -/
def trendDay (avg : ℤ) (treatments : List Treatment) (date : ℤ) : ℤ × ℤ :=
  let completedTreatments := completedOnOrBefore treatments date
  let baseHealth := max 20 (100 - avg)
  let improvement := min 30 ((completedTreatments : ℤ) * 5)
  let healthScore := min 100 (baseHealth + improvement)
  (healthScore, max 0 (100 - healthScore))

/-- generateCropHealthTrend: build the trailing 30 calendar days oldest
first (day i is today minus (29 - i) days, modelled on integer days),
map each to its trendDay entry, then filter((_, index) => index % 3 === 0)
to keep every third entry. -/
def generateCropHealthTrend (avg : ℤ) (treatments : List Treatment) (today : ℤ) :
    List (ℤ × ℤ) :=
  let last30 := (List.range 30).map (fun (i : ℕ) => today - (29 - (i : ℤ)))
  (((last30.map (trendDay avg treatments)).enum.filter
      (fun p => p.1 % 3 = 0)).map (fun p => p.2))

/-- The record inserted into the farmers table by signUp
(AuthContext.tsx line 166): the object literal { email, password,
...userData } as an ordered key-value list; with object spread, a key
occurring later overrides an earlier one. -/
def signUpInsertRecord (email password : String)
    (userData : List (String × String)) : List (String × String) :=
  [("email", email), ("password", password)] ++ userData

/-- Field lookup on a JavaScript object literal modelled as an ordered
key-value list: the value of a key is the value of its last occurrence. -/
def objGet (l : List (String × String)) (k : String) : Option String :=
  (l.reverse.find? (fun e => e.1 = k)).map (fun e => e.2)

/-! ## Concrete records used in evaluations -/

/-- A copper-oxychloride treatment with the given completion flag. -/
def copperOxy (completed : Bool) : Treatment :=
  { id := 1, pesticide_name := "Copper Oxychloride", scheduled_date := 0, completed := completed }

/-- A copper-sulfate treatment with the given completion flag. -/
def copperSulf (completed : Bool) : Treatment :=
  { id := 2, pesticide_name := "Copper Sulfate", scheduled_date := 5, completed := completed }

/-- A dashboard state with some previously fetched data, used to observe
that a failing fetch leaves it untouched. -/
def demoDashState : DashState :=
  { stats :=
      { totalLands := 2, totalAcres := 7, activeTreatments := 1,
        completedTreatments := 1, averageDiseasePercentage := 40 }
    lands := [{ id := 1, location := "North field", acres := 7 }]
    treatments := [copperOxy true, copperSulf false]
    diagnoses := [{ id := 9, created_at := 100 }] }

/-! ## Theorems -/

/-- C2: every execution of signOut, whether the external sign-out call
succeeds or fails, leaves the local session cleared: user none, loading
false, both storages wiped (and an error is logged exactly on failure). -/
theorem signOut_always_clears (res : Except String Unit) (s : AppState) :
    ((signOut res s).1.user = none) ∧
    ((signOut res s).1.loading = false) ∧
    ((signOut res s).1.localStorage = []) ∧
    ((signOut res s).1.sessionStorage = []) := by
  cases res <;> simp [signOut, clearSession]

/-- C9: the active-treatment count plus the completed-treatment count
always equals the total number of fetched treatment records. -/
theorem active_plus_completed_eq_total (ts : List Treatment) :
    activeCount ts + completedCount ts = ts.length := by
  induction ts with
  | nil => rfl
  | cons t ts ih =>
    by_cases h : t.completed = true <;>
      simp [activeCount, completedCount, List.filter, h] at ih ⊢ <;> omega

/-- In the source, every run of the catch branch of the initial session
check uses the captured attempts value 0, so the retry bound never
triggers: each failure increments the stored count and schedules another
retry, and the session is never cleared by this path. -/
theorem failuresFromMount_retries_forever (n : Nat) (s : AppState) :
    failuresFromMount n s =
      ({ s with sessionCheckAttempts := s.sessionCheckAttempts + n },
        CheckOutcome.retryScheduled) := by
  induction n with
  | zero => rfl
  | succ n ih =>
    simp [failuresFromMount, ih, checkUserOnFailure, MAX_SESSION_CHECK_ATTEMPTS]
    omega

/-- C1: evaluation of the source behaviour at the failing input. After
MAX_SESSION_CHECK_ATTEMPTS + 1 = 4 consecutive failures of the initial
session check, the code has not transitioned to Unauthenticated: loading
is still true, local storage is not cleared, no navigation happened, the
stored attempt count is 4, and a fifth retry is scheduled. This
contradicts the claim, which says the fourth failure forces the
clear-and-redirect; the branch implementing that bound is unreachable
because its guard reads the attempts value captured at mount (0). -/
theorem sessionCheck_bound_never_reached :
    (failuresFromMount (MAX_SESSION_CHECK_ATTEMPTS + 1) mountState).2
        = CheckOutcome.retryScheduled ∧
    (failuresFromMount (MAX_SESSION_CHECK_ATTEMPTS + 1) mountState).1.loading = true ∧
    (failuresFromMount (MAX_SESSION_CHECK_ATTEMPTS + 1) mountState).1.localStorage
        = [("vighs-key", "vighs-value")] ∧
    (failuresFromMount (MAX_SESSION_CHECK_ATTEMPTS + 1) mountState).1.navigatedHome
        = false ∧
    (failuresFromMount (MAX_SESSION_CHECK_ATTEMPTS + 1) mountState).1.sessionCheckAttempts
        = 4 := by
  decide

/-- Under the reading of the retry bound stated by the specification
(guard compares the current retry count), exactly
MAX_SESSION_CHECK_ATTEMPTS + 1 consecutive failures clear the session,
wipe storage and navigate home, while the first three failures each
schedule a retry. The source was evidently intended to behave this way. -/
theorem specSessionCheck_clears_at_bound :
    (specFailuresFromMount (MAX_SESSION_CHECK_ATTEMPTS + 1) mountState).2
        = CheckOutcome.clearedAndRedirected ∧
    (specFailuresFromMount (MAX_SESSION_CHECK_ATTEMPTS + 1) mountState).1.user = none ∧
    (specFailuresFromMount (MAX_SESSION_CHECK_ATTEMPTS + 1) mountState).1.loading = false ∧
    (specFailuresFromMount (MAX_SESSION_CHECK_ATTEMPTS + 1) mountState).1.localStorage = [] ∧
    (specFailuresFromMount (MAX_SESSION_CHECK_ATTEMPTS + 1) mountState).1.sessionStorage = [] ∧
    (specFailuresFromMount (MAX_SESSION_CHECK_ATTEMPTS + 1) mountState).1.navigatedHome = true ∧
    (specFailuresFromMount MAX_SESSION_CHECK_ATTEMPTS mountState).2
        = CheckOutcome.retryScheduled := by
  decide

/-- C4: loading-guard escalation. While the component stays mounted
(loading never resolves, unmountAt = none): past 8000ms the hint message
is visible, and past 12000ms the session is force-cleared (user none,
loading false, storage wiped) with a hard navigation to the landing
route. If the cleanup runs at or before a timer deadline (which happens
when loading becomes false and the component unmounts), that timer is
cancelled and never fires. -/
theorem loadingGuard_escalation (s : AppState) (unmountAt : Option Nat) (t u : Nat) :
    (unmountAt = none → HINT_DELAY_MS ≤ t → showTimeout unmountAt t = true) ∧
    (unmountAt = none → FORCE_DELAY_MS ≤ t →
      (loadingGuardState s unmountAt t).user = none ∧
      (loadingGuardState s unmountAt t).loading = false ∧
      (loadingGuardState s unmountAt t).localStorage = [] ∧
      (loadingGuardState s unmountAt t).sessionStorage = [] ∧
      (loadingGuardState s unmountAt t).navigatedHome = true) ∧
    (unmountAt = some u → u ≤ HINT_DELAY_MS → showTimeout unmountAt t = false) ∧
    (unmountAt = some u → u ≤ FORCE_DELAY_MS → loadingGuardState s unmountAt t = s) := by
  refine ⟨?_, ?_, ?_, ?_⟩
  · intro h ht
    subst h
    simp [showTimeout, timerFired, ht]
  · intro h ht
    subst h
    simp [loadingGuardState, timerFired, ht, clearSession]
  · intro h hu
    subst h
    simp only [showTimeout, timerFired, HINT_DELAY_MS] at hu ⊢
    have : ¬ (8000 < u) := by omega
    simp [this]
  · intro h hu
    subst h
    simp only [loadingGuardState, timerFired, FORCE_DELAY_MS] at hu ⊢
    have : ¬ (12000 < u) := by omega
    simp [this]

/-- Witness for loadingGuard_escalation at concrete times: mounted at
12000ms the guard has cleared and navigated; unmounted at 500ms the hint
timer never fires. -/
theorem loadingGuard_escalation_witness :
    showTimeout none 8000 = true ∧
    (loadingGuardState mountState none 12000).navigatedHome = true ∧
    showTimeout (some 500) 9999 = false := by
  refine ⟨?_, ?_, ?_⟩
  · exact (loadingGuard_escalation mountState none 8000 0).1 rfl (by decide)
  · exact ((loadingGuard_escalation mountState none 12000 0).2.1 rfl (by decide)).2.2.2.2
  · exact (loadingGuard_escalation mountState (some 500) 9999 500).2.2.1 rfl (by decide)

/-- C3: in every dashboard fetch cycle in which any of the four queries
fails, the error is caught and logged (second component true) and the
previously held state, all four fields included, is returned unchanged. -/
theorem fetchDashboard_error_leaves_state (u : Farmer) (s : DashState)
    (qLands : Except Unit (Option (List Land)))
    (qPlants : Except Unit (Option (List Plant)))
    (qTreatments : Except Unit (Option (List Treatment)))
    (qDiagnoses : Except Unit (Option (List Diagnosis)))
    (h : qLands.isOk = false ∨ qPlants.isOk = false ∨
         qTreatments.isOk = false ∨ qDiagnoses.isOk = false) :
    fetchDashboardData (some u) s qLands qPlants qTreatments qDiagnoses = (s, true) := by
  cases qLands <;> cases qPlants <;> cases qTreatments <;> cases qDiagnoses <;>
    simp_all [fetchDashboardData, Except.isOk, Except.toBool]

/-- Witness for fetchDashboard_error_leaves_state: a failing lands query
leaves the demo state untouched and is logged. -/
theorem fetchDashboard_error_leaves_state_witness :
    fetchDashboardData (some { id := 1, email := "farmer@example.com" }) demoDashState
        (Except.error ()) (Except.ok none) (Except.ok none) (Except.ok none)
      = (demoDashState, true) :=
  fetchDashboard_error_leaves_state { id := 1, email := "farmer@example.com" }
    demoDashState (Except.error ()) (Except.ok none) (Except.ok none) (Except.ok none)
    (Or.inl rfl)

/-- C5: averageDiseasePercentage is the arithmetic mean of the fetched
disease_percentage values rounded to the nearest integer (Math.round),
it is exactly 0 on the empty plant set, and exactly 40 on every nonempty
uniform set whose records all carry disease_percentage 40. -/
theorem avgDisease_is_rounded_mean :
    (∀ plants : List Plant,
      avgDiseasePercentage plants =
        if plants.length = 0 then 0
        else jsRound ((plants.map (fun p => p.disease_percentage)).sum / plants.length)) ∧
    avgDiseasePercentage [] = 0 ∧
    (∀ n : Nat,
      avgDiseasePercentage
        (List.replicate (n + 1) { disease_percentage := 40 }) = 40) := by
  have hzero : jsRound 0 = 0 := by norm_num [jsRound, Int.floor_eq_iff]
  have hforty : jsRound 40 = 40 := by norm_num [jsRound, Int.floor_eq_iff]
  refine ⟨?_, ?_, ?_⟩
  · intro plants
    by_cases h : plants.length = 0 <;> simp [avgDiseasePercentage, h, hzero]
  · simp [avgDiseasePercentage, hzero]
  · intro n
    have hne : ((n : ℚ) + 1) ≠ 0 := by positivity
    simp [avgDiseasePercentage, List.map_replicate, List.sum_replicate, nsmul_eq_mul]
    rw [mul_comm, mul_div_cancel_right₀ _ hne, hforty]

/-- C6: the crop-health donut is the single No Data slice on an empty
treatment set; on a nonempty set it is the Treated slice at
Math.round(completed / total * 100) and the Needs Treatment slice at the
complement, each omitted when its value is 0; and for 3 treatments of
which 2 are completed it is exactly Treated 67 and Needs Treatment 33. -/
theorem cropHealth_donut (ts : List Treatment) :
    (ts = [] → calculateCropHealth ts =
      [{ name := "No Data", value := 100, fill := "#9CA3AF" }]) ∧
    (ts ≠ [] →
      calculateCropHealth ts =
        (if 0 < jsRound (((ts.filter (fun t => t.completed)).length : ℚ) /
              (ts.length : ℚ) * 100) then
          [{ name := "Treated",
             value := jsRound (((ts.filter (fun t => t.completed)).length : ℚ) /
               (ts.length : ℚ) * 100),
             fill := "#10B981" }]
         else []) ++
        (if 0 < 100 - jsRound (((ts.filter (fun t => t.completed)).length : ℚ) /
              (ts.length : ℚ) * 100) then
          [{ name := "Needs Treatment",
             value := 100 - jsRound (((ts.filter (fun t => t.completed)).length : ℚ) /
               (ts.length : ℚ) * 100),
             fill := "#EF4444" }]
         else [])) ∧
    calculateCropHealth [copperOxy true, copperSulf true, copperOxy false] =
      [{ name := "Treated", value := 67, fill := "#10B981" },
       { name := "Needs Treatment", value := 33, fill := "#EF4444" }] := by
  refine ⟨?_, ?_, ?_⟩
  · intro h
    subst h
    rfl
  · intro h
    have hlen : ts.length ≠ 0 := by simpa [List.length_eq_zero] using h
    simp [calculateCropHealth, hlen]
  · have h67 : jsRound ((2 : ℚ) / 3 * 100) = 67 := by
      norm_num [jsRound, Int.floor_eq_iff]
    simp [calculateCropHealth, copperOxy, copperSulf, h67]

/-- Witness for cropHealth_donut: the empty set yields the No Data slice. -/
theorem cropHealth_donut_witness :
    calculateCropHealth [] = [{ name := "No Data", value := 100, fill := "#9CA3AF" }] :=
  (cropHealth_donut []).1 rfl

/-- C7: pesticide usage groups treatments by the first space-separated
word of pesticide_name, keeps at most the first 6 groups in insertion
order, and reports effectiveness as Math.round(completed / used * 100):
Copper Oxychloride and Copper Sulfate share the group keyed Copper, with
effectiveness 100 when both are completed and 50 when exactly one is. -/
theorem pesticideUsage_grouping :
    (∀ ts : List Treatment, (generatePesticideUsage ts).length ≤ 6) ∧
    firstWord "Copper Oxychloride" = "Copper" ∧
    firstWord "Copper Sulfate" = "Copper" ∧
    generatePesticideUsage [copperOxy true, copperSulf true] = [("Copper", 2, 100)] ∧
    generatePesticideUsage [copperOxy true, copperSulf false] = [("Copper", 2, 50)] := by
  have h1 : firstWord "Copper Oxychloride" = "Copper" := by decide
  have h2 : firstWord "Copper Sulfate" = "Copper" := by decide
  refine ⟨?_, h1, h2, ?_, ?_⟩
  · intro ts
    simp only [generatePesticideUsage, List.length_take]
    exact min_le_left _ _
  · simp [generatePesticideUsage, addTreatmentToStats, copperOxy, copperSulf, h1, h2]
    norm_num [jsRound, Int.floor_eq_iff]
  · simp [generatePesticideUsage, addTreatmentToStats, copperOxy, copperSulf, h1, h2]
    norm_num [jsRound, Int.floor_eq_iff]

/-- The per-day trend entry equals the closed formula of the
specification: the max-0 clamp on the disease level is redundant because
the health score never exceeds 100, and the improvement product commutes. -/
theorem trendDay_eq (avg : ℤ) (ts : List Treatment) (d : ℤ) :
    trendDay avg ts d =
      (min 100 (max 20 (100 - avg) + min 30 (5 * (completedOnOrBefore ts d : ℤ))),
       100 - min 100 (max 20 (100 - avg) + min 30 (5 * (completedOnOrBefore ts d : ℤ)))) := by
  unfold trendDay
  rw [Prod.mk.injEq]
  generalize (completedOnOrBefore ts d : ℤ) = c
  constructor <;> omega

/-- Enumerating a mapped arithmetic range pairs every element with its
own value: the index of position j in range' k n is exactly k + j. -/
theorem enumFrom_map_range' {β : Type} (g : ℕ → β) :
    ∀ (n k : ℕ), List.enumFrom k ((List.range' k n).map g)
      = (List.range' k n).map (fun i => (i, g i)) := by
  intro n
  induction n with
  | zero => intro k; rfl
  | succ n ih =>
    intro k
    simp [List.range'_succ, ih (k + 1)]

/-- C8: the 30-day health trend assigns each of the trailing 30 days
(oldest first, day i being today minus 29 - i) the health score
min(100, max(20, 100 - averageDiseasePercentage) + min(30, 5 * count of
treatments completed with scheduled date on or before the day)) and the
disease level 100 minus that score, and keeps exactly the days at indices
0, 3, ..., 27. -/
theorem cropHealthTrend_formula (avg : ℤ) (ts : List Treatment) (today : ℤ) :
    generateCropHealthTrend avg ts today =
      ((List.range 30).filter (fun i => i % 3 = 0)).map (fun (i : ℕ) =>
        (min 100 (max 20 (100 - avg) +
            min 30 (5 * (completedOnOrBefore ts (today - (29 - (i : ℤ))) : ℤ))),
         100 - min 100 (max 20 (100 - avg) +
            min 30 (5 * (completedOnOrBefore ts (today - (29 - (i : ℤ))) : ℤ))))) := by
  unfold generateCropHealthTrend
  rw [show trendDay avg ts = fun d =>
      (min 100 (max 20 (100 - avg) + min 30 (5 * (completedOnOrBefore ts d : ℤ))),
       100 - min 100 (max 20 (100 - avg) + min 30 (5 * (completedOnOrBefore ts d : ℤ))))
    from funext (trendDay_eq avg ts)]
  dsimp only
  rw [List.map_map, List.enum, List.range_eq_range', enumFrom_map_range',
    List.filter_map, List.map_map]
  rfl

/-- C10 counterexample: signUp inserts the object literal
{ email, password, ...userData }, and the spread lets profile keys
override the credentials; with a profile carrying password and email keys
the inserted record does not hold the caller-supplied password or email. -/
theorem signUp_password_override :
    objGet (signUpInsertRecord "farmer@example.com" "secret"
        [("password", "hacked"), ("email", "evil@example.com")]) "password"
      = some "hacked" ∧
    objGet (signUpInsertRecord "farmer@example.com" "secret"
        [("password", "hacked"), ("email", "evil@example.com")]) "password"
      ≠ some "secret" ∧
    objGet (signUpInsertRecord "farmer@example.com" "secret"
        [("password", "hacked"), ("email", "evil@example.com")]) "email"
      ≠ some "farmer@example.com" := by
  refine ⟨by decide, by decide, by decide⟩

/-- C10 amended: when the profile object carries neither a password nor
an email key, the record inserted into the farmers table holds the
plaintext password and email exactly as the caller supplied them, and
every profile field keeps its value. -/
theorem signUp_insert_plaintext_password (email password : String)
    (userData : List (String × String))
    (hp : objGet userData "password" = none)
    (he : objGet userData "email" = none) :
    objGet (signUpInsertRecord email password userData) "password" = some password ∧
    objGet (signUpInsertRecord email password userData) "email" = some email ∧
    (∀ k, k ≠ "password" → k ≠ "email" →
      objGet (signUpInsertRecord email password userData) k = objGet userData k) := by
  have hp' : userData.reverse.find? (fun e => decide (e.1 = "password")) = none := by
    simpa [objGet, Option.map_eq_none'] using hp
  have he' : userData.reverse.find? (fun e => decide (e.1 = "email")) = none := by
    simpa [objGet, Option.map_eq_none'] using he
  refine ⟨?_, ?_, ?_⟩
  · simp [objGet, signUpInsertRecord, List.find?_append, List.find?, hp']
  · simp [objGet, signUpInsertRecord, List.find?_append, List.find?, he']
  · intro k hk1 hk2
    have h1 : ¬ ("password" = k) := fun h => hk1 h.symm
    have h2 : ¬ ("email" = k) := fun h => hk2 h.symm
    simp [objGet, signUpInsertRecord, List.find?_append, List.find?, h1, h2]

/-- Witness for signUp_insert_plaintext_password: with a profile holding
only a name, the inserted record keeps the caller-supplied password. -/
theorem signUp_insert_plaintext_password_witness :
    objGet (signUpInsertRecord "farmer@example.com" "secret" [("name", "Asha")])
        "password" = some "secret" :=
  (signUp_insert_plaintext_password "farmer@example.com" "secret" [("name", "Asha")]
    (by decide) (by decide)).1

end Vighs
